import Mathlib

/-!
Shallow embedding of the GovBrief mobile client (React Native / TypeScript).

Each screen's data-handling logic is translated into pure Lean functions:
network effects become explicit parameters (the observed outcome of the
axios call), React state updates become explicit state passing, and the
JavaScript truthiness idioms (`a || b`, `x.trim()`) are modelled by
total functions with the same behaviour on the value shapes the client
actually receives.
-/

/-- A document record as the client receives it from
GET /api/v1/documents/ (interface Document in DocumentListScreen.tsx
and HomeScreen.tsx). -/
structure Document where
  document_id : String
  filename : String
  created_at : String
  status : String
  file_size : Option Nat := none
  page_count : Option Nat := none
deriving DecidableEq, Repr

/-- The body of a successful GET /api/v1/documents/ response, as the
client distinguishes it: either an object with a `documents` field
(wrapped shape), a bare JSON array, or a falsy body (null/undefined).
A JavaScript array is truthy even when empty, so both array shapes
carry their list directly. -/
inductive ListBody where
  | wrapped (docs : List Document)
  | bare (docs : List Document)
  | nullBody
deriving DecidableEq, Repr

/-- A chat message in ChatScreen's local state
(interface ChatMessage in ChatScreen.tsx). -/
structure ChatMessage where
  id : String
  text : String
  isUser : Bool
  timestamp : Nat
deriving DecidableEq, Repr

/-- The error object observed in an axios catch branch:
    `error.code`, `error.response?.status` and `error.message`. -/
structure AxiosError where
  code : Option String
  status : Option Nat
  message : String
deriving DecidableEq, Repr

/-- Outcome of the POST /api/v1/chat request as ChatScreen observes it:
on success the two optional string fields `response.data.answer` and
`response.data.response`; on failure the axios error object. -/
inductive ChatOutcome where
  | success (answer : Option String) (response : Option String)
  | failure (e : AxiosError)
deriving DecidableEq, Repr

/-- JavaScript `v || default` for an optional string `v`: the empty
string and an absent field are falsy, any other string is truthy. -/
def jsStrOr (v : Option String) (default : String) : String :=
  match v with
  | some s => if s = "" then default else s
  | none => default

/-- JavaScript `s.trim()`: strip leading and trailing whitespace,
modelled structurally on the character list so that it evaluates by
kernel reduction. -/
def jsTrim (s : String) : String :=
  ⟨((s.data.dropWhile Char.isWhitespace).reverse.dropWhile Char.isWhitespace).reverse⟩

namespace ChatScreen

/-- ChatScreen.tsx line 16. -/
def BACKEND_URL : String := "https://govbrief-production.up.railway.app"

/-- The fixed client-observed-timeout message
(ChatScreen.tsx line 154). -/
def timeoutMsg : String := "⏰ 응답 시간이 초과되었습니다. 다시 시도해주세요."

/-- The fixed HTTP-404 message: upload and analyze a document first
(ChatScreen.tsx line 156). -/
def noDocMsg : String := "📄 먼저 문서를 업로드하고 분석해주세요. 그래야 해당 문서에 대해 질문할 수 있어요!"

/-- The fixed HTTP-500 transient-server-problem message
(ChatScreen.tsx line 158). -/
def serverMsg : String := "🔧 서버에 일시적인 문제가 발생했습니다. 잠시 후 다시 시도해주세요."

/-- The generic connection-error message built from `error.message`
(ChatScreen.tsx line 160). -/
def connErrMsg (m : String) : String := "❌ 연결 오류: " ++ m

/-- The success-path fallback when neither `answer` nor `response`
is truthy (ChatScreen.tsx line 149). -/
def noAnswerMsg : String := "AI 응답을 받지 못했습니다."

/-- ChatScreen.sendMessageToBackend (ChatScreen.tsx lines 136-163):
on success returns `response.data.answer || response.data.response ||
'AI 응답을 받지 못했습니다.'`; in the catch branch it pattern-matches
`error.code === 'ECONNABORTED'`, then `error.response?.status === 404`,
then `=== 500`, else the generic connection-error text. The function is
total: every error path returns a string, none rethrows. -/
def sendMessageToBackend : ChatOutcome → String
  | .success ans resp => jsStrOr ans (jsStrOr resp noAnswerMsg)
  | .failure e =>
    if e.code = some "ECONNABORTED" then timeoutMsg
    else if e.status = some 404 then noDocMsg
    else if e.status = some 500 then serverMsg
    else connErrMsg e.message

/-- ChatScreen's mutable state relevant to the claims: the message list,
the text-input contents, the typing flag and the selected document id
(ChatScreen.tsx lines 42-54). -/
structure ChatState where
  messages : List ChatMessage
  message : String
  isTyping : Bool
  currentDocumentId : Option String
deriving DecidableEq, Repr

/-- Document-list extraction in ChatScreen.fetchLatestDocument
(ChatScreen.tsx line 71): `response.data.documents || []` — only the
wrapped shape yields documents; a bare array body has no `documents`
field, so the expression falls through to `[]`. -/
def extractDocs : ListBody → List Document
  | .wrapped docs => docs
  | .bare _ => []
  | .nullBody => []

/-- The outcome of the GET /api/v1/documents/ call as a screen
observes it: a response body on success, or a caught error. -/
inductive FetchResult where
  | ok (body : ListBody)
  | error
deriving DecidableEq, Repr

/-- The system message appended when a document is auto-selected
(ChatScreen.tsx lines 77-82); `now` models Date.now(). -/
def autoSelectMessage (now : Nat) (filename : String) : ChatMessage :=
  { id := toString now ++ "_system"
    text := "📄 \"" ++ filename ++ "\" 문서가 자동으로 선택되었습니다. 이제 이 문서에 대해 질문할 수 있어요!"
    isUser := false
    timestamp := now }

/-- ChatScreen.fetchLatestDocument (ChatScreen.tsx lines 68-91): on
success extracts `response.data.documents || []`; if non-empty, takes
docs[0], sets currentDocumentId to its document_id and appends the
auto-selection system message; on a caught error only logs. -/
def fetchLatestDocument (s : ChatState) (now : Nat) (r : FetchResult) : ChatState :=
  match r with
  | .ok body =>
    match extractDocs body with
    | [] => s
    | latestDoc :: _ =>
      { s with currentDocumentId := some latestDoc.document_id
               messages := s.messages ++ [autoSelectMessage now latestDoc.filename] }
  | .error => s

/-- JavaScript `haystack.includes(needle)`: substring containment,
modelled on the underlying character lists. -/
def jsIncludes (haystack needle : String) : Bool :=
  decide (List.IsInfix needle.data haystack.data)

/-- The search effect (ChatScreen.tsx lines 94-105): a blank search
text clears foundIds and returns early (leaving currentMatchIndex
alone); otherwise foundIds becomes the ids of the messages whose text
contains the search text and currentMatchIndex is reset to 0. Returns
the new (foundIds, currentMatchIndex) pair. -/
def searchEffect (messages : List ChatMessage) (searchText : String)
    (currentMatchIndex : Int) : List String × Int :=
  if jsTrim searchText = "" then ([], currentMatchIndex)
  else ((messages.filter (fun msg => jsIncludes msg.text searchText)).map (fun msg => msg.id), 0)

/-- ChatScreen.handlePrevMatch (ChatScreen.tsx lines 119-122): no-op on
an empty match list, otherwise `(prev - 1 + foundIds.length) %
foundIds.length`. Indices are JavaScript numbers; in every reachable
state the dividend is non-negative, where JavaScript `%` agrees with
integer emod. -/
def handlePrevMatch (foundIds : List String) (currentMatchIndex : Int) : Int :=
  if foundIds.length = 0 then currentMatchIndex
  else (currentMatchIndex - 1 + foundIds.length) % foundIds.length

/-- ChatScreen.handleNextMatch (ChatScreen.tsx lines 124-127): no-op on
an empty match list, otherwise `(prev + 1) % foundIds.length`. -/
def handleNextMatch (foundIds : List String) (currentMatchIndex : Int) : Int :=
  if foundIds.length = 0 then currentMatchIndex
  else (currentMatchIndex + 1) % foundIds.length

/-- The fallback message of sendMessage's own catch branch
(ChatScreen.tsx line 196); unreachable in practice because
sendMessageToBackend resolves on every path, but kept in the model as
the code keeps the handler. -/
def unexpectedErrMsg : String := "죄송해요, 일시적인 오류가 발생했습니다. 잠시 후 다시 시도해주세요. 🤖"

/-- ChatScreen.sendMessage (ChatScreen.tsx lines 166-204): returns the
final state together with a flag recording whether a backend request
was issued. A blank input returns immediately. Otherwise the trimmed
user message is appended and the input cleared before the backend call;
after the call resolves, one AI message (the backend answer, or the
catch-branch text if the await itself threw — modelled by `threw`) is
appended, and `finally` clears isTyping. `now` models Date.now(). -/
def sendMessage (s : ChatState) (textToSend : String) (now : Nat)
    (outcome : ChatOutcome) (threw : Bool) : ChatState × Bool :=
  if jsTrim textToSend = "" then (s, false)
  else
    let userMessage : ChatMessage :=
      { id := toString now, text := jsTrim textToSend, isUser := true, timestamp := now }
    let s1 := { s with messages := s.messages ++ [userMessage], message := "", isTyping := true }
    let aiText := if threw then unexpectedErrMsg else sendMessageToBackend outcome
    let aiMessage : ChatMessage :=
      { id := toString (now + 1), text := aiText, isUser := false, timestamp := now }
    let s2 := { s1 with messages := s1.messages ++ [aiMessage] }
    ({ s2 with isTyping := false }, true)

/-- The axios request configuration the client attaches to a call:
timeout in milliseconds and the explicit Content-Type header, when
present. -/
structure AxiosConfig where
  url : String
  timeout : Option Nat
  contentTypeHeader : Option String
deriving DecidableEq, Repr

/-- The POST /api/v1/chat request configuration
(ChatScreen.tsx lines 138-147): 30000 ms timeout, JSON content type. -/
def chatRequestConfig : AxiosConfig :=
  { url := BACKEND_URL ++ "/api/v1/chat"
    timeout := some 30000
    contentTypeHeader := some "application/json" }

end ChatScreen

namespace DocumentListScreen

/-- DocumentListScreen's state relevant to the claims
(DocumentListScreen.tsx lines 29-33). -/
structure DLState where
  documents : List Document
  loading : Bool
  refreshing : Bool
deriving DecidableEq, Repr

/-- Document-list extraction in DocumentListScreen.fetchDocuments
(DocumentListScreen.tsx line 42): `response.data.documents ||
response.data || []` — the wrapped field wins when present, a bare
array body is truthy and taken as-is, a falsy body yields `[]`. -/
def extractDocs : ListBody → List Document
  | .wrapped docs => docs
  | .bare docs => docs
  | .nullBody => []

/-- DocumentListScreen.fetchDocuments (DocumentListScreen.tsx lines
36-52): on success stores the extracted list; the catch branch only
logs (the setDocuments([]) line is commented out in the source), and
`finally` clears loading and refreshing either way. -/
def fetchDocuments (s : DLState) (r : ChatScreen.FetchResult) : DLState :=
  match r with
  | .ok body => { s with documents := extractDocs body, loading := false, refreshing := false }
  | .error => { s with loading := false, refreshing := false }

/-- DocumentListScreen.getStatusText (DocumentListScreen.tsx lines
103-117), with the switch's fall-through groups rendered as
disjunctions: 'completed'/'analyzed'/'분석완료' give the
analysis-complete label, 'analyzing'/'reanalyzing' the analyzing label,
'uploaded' the uploaded label, and the default is also the uploaded
label. Note the switch has no case for the historical '분석중'. -/
def getStatusText (status : String) : String :=
  if status = "completed" ∨ status = "analyzed" ∨ status = "분석완료" then "분석 완료"
  else if status = "analyzing" ∨ status = "reanalyzing" then "분석 중"
  else if status = "uploaded" then "업로드 완료"
  else "업로드 완료"

/-- DocumentListScreen.getStatusColor (DocumentListScreen.tsx lines
136-155): accepts raw statuses and both spellings of the display
labels; unrecognized values give the fallback color. -/
def getStatusColor (status : String) : String :=
  if status = "분석완료" ∨ status = "분석 완료" ∨ status = "completed" ∨ status = "analyzed" then
    "#4CAF50"
  else if status = "분석중" ∨ status = "분석 중" ∨ status = "analyzing" ∨ status = "reanalyzing" then
    "#FF9800"
  else if status = "업로드완료" ∨ status = "업로드 완료" ∨ status = "uploaded" then
    "#2196F3"
  else "#666"

/-- The color actually painted on a document card's status badge
(DocumentListScreen.tsx line 272):
`getStatusColor(getStatusText(doc.status))`. -/
def statusBadgeColor (status : String) : String :=
  getStatusColor (getStatusText status)

/-- The POST /api/v1/analyze request configuration
(DocumentListScreen.tsx lines 66-70): 30000 ms timeout, no explicit
Content-Type header. -/
def analyzeRequestConfig : ChatScreen.AxiosConfig :=
  { url := ChatScreen.BACKEND_URL ++ "/api/v1/analyze"
    timeout := some 30000
    contentTypeHeader := none }

/-- The GET /api/v1/documents/ request configuration of this screen
(DocumentListScreen.tsx lines 38-40): 10000 ms timeout. -/
def listRequestConfig : ChatScreen.AxiosConfig :=
  { url := ChatScreen.BACKEND_URL ++ "/api/v1/documents/"
    timeout := some 10000
    contentTypeHeader := none }

end DocumentListScreen

namespace HomeScreen

/-- A notification item in HomeScreen's client-local notification
center (interface NotificationItem in HomeScreen.tsx lines 19-26). -/
inductive NotificationType where
  | complete
  | analyzing
  | info
deriving DecidableEq, Repr

/-- See NotificationType. -/
structure NotificationItem where
  id : String
  type : NotificationType
  title : String
  message : String
  date : String
  read : Bool
deriving DecidableEq, Repr

/-- HomeScreen's state relevant to the claims
(HomeScreen.tsx lines 41-57). -/
structure HomeState where
  documents : List Document
  loading : Bool
  refreshing : Bool
  notifications : List NotificationItem
deriving DecidableEq, Repr

/-- Document-list extraction in HomeScreen.fetchDocuments
(HomeScreen.tsx line 69): `response.data.documents || []` — only the
wrapped shape yields documents. -/
def extractDocs : ListBody → List Document
  | .wrapped docs => docs
  | .bare _ => []
  | .nullBody => []

/-- HomeScreen.fetchDocuments (HomeScreen.tsx lines 63-100): on
success stores the extracted list and, when it contains completed
documents, prepends up to three analysis-complete notifications while
keeping only the info-typed old ones; the catch branch only logs;
`finally` clears loading and refreshing either way. `fmt` stands for
the time-dependent formatDate. -/
def fetchDocuments (fmt : String → String) (s : HomeState) (r : ChatScreen.FetchResult) :
    HomeState :=
  match r with
  | .ok body =>
    let docs := extractDocs body
    let s1 := { s with documents := docs }
    let s2 :=
      if docs.length > 0 then
        let completedDocs := docs.filter (fun doc =>
          doc.status = "completed" ∨ doc.status = "분석완료")
        if completedDocs.length > 0 then
          let newNotifications := (completedDocs.take 3).map (fun doc =>
            ({ id := "complete_" ++ doc.document_id
               type := .complete
               title := "✅ 분석 완료"
               message := doc.filename ++ " 분석이 끝났습니다."
               date := fmt doc.created_at
               read := false } : NotificationItem))
          { s1 with notifications :=
              newNotifications ++ s1.notifications.filter (fun n => n.type = .info) }
        else s1
      else s1
    { s2 with loading := false, refreshing := false }
  | .error => { s with loading := false, refreshing := false }

/-- HomeScreen's latest-document selection (HomeScreen.tsx line 116):
`documents.length > 0 ? documents[0] : null`. -/
def latestDoc (documents : List Document) : Option Document :=
  match documents with
  | [] => none
  | d :: _ => some d

/-- HomeScreen.getStatusText (HomeScreen.tsx lines 154-165): only the
three English statuses are translated to Korean labels; the default
branch returns the input unchanged. -/
def getStatusText (status : String) : String :=
  if status = "completed" then "분석완료"
  else if status = "analyzing" then "분석중"
  else if status = "uploaded" then "업로드완료"
  else status

/-- HomeScreen.getStatusColor (HomeScreen.tsx lines 137-152). -/
def getStatusColor (status : String) : String :=
  if status = "분석완료" ∨ status = "completed" ∨ status = "analyzed" then "#4CAF50"
  else if status = "분석중" ∨ status = "analyzing" then "#FF9800"
  else if status = "업로드완료" ∨ status = "uploaded" then "#2196F3"
  else "#999"

end HomeScreen

namespace DocumentUploadScreen

/-- The POST /api/v1/documents/upload request configuration
(DocumentUploadScreen.tsx lines 40-49): 30000 ms timeout, multipart
content type. -/
def uploadRequestConfig : ChatScreen.AxiosConfig :=
  { url := ChatScreen.BACKEND_URL ++ "/api/v1/documents/upload"
    timeout := some 30000
    contentTypeHeader := some "multipart/form-data" }

end DocumentUploadScreen

/-- A concrete document record, used to evaluate the definitions on a
specific input. -/
def sampleDoc : Document :=
  { document_id := "d1"
    filename := "report.pdf"
    created_at := "2025-01-01T00:00:00Z"
    status := "completed" }

/-! ## Helper lemmas -/

/-- jsStrOr never produces the empty string when its default is
non-empty. -/
theorem jsStrOr_ne_empty (v : Option String) (d : String) (hd : d ≠ "") :
    jsStrOr v d ≠ "" := by
  cases v with
  | none => simpa [jsStrOr] using hd
  | some s =>
    simp only [jsStrOr]
    split
    · exact hd
    · assumption

/-- A string with a non-empty left component is non-empty. -/
theorem append_left_ne_empty (s t : String) (hs : s ≠ "") : s ++ t ≠ "" := by
  intro h
  apply hs
  have hlen : (s ++ t).length = 0 := by rw [h]; rfl
  rw [String.length_append] at hlen
  have : s.length = 0 := by omega
  cases s with
  | mk data =>
    cases data with
    | nil => rfl
    | cons c cs => simp [String.length, List.length] at this

/-! ## Theorems for the claims -/

/-- C1: ChatScreen.sendMessageToBackend maps the three contract failure
cases to distinct fixed user-facing messages: code 'ECONNABORTED'
yields the timeout message; otherwise HTTP 404 yields the
upload-and-analyze-first message; otherwise HTTP 500 yields the
transient-server-problem message; any other error yields the generic
connection-error message; and the timeout, 404 and 500 texts are
pairwise distinct. -/
theorem chat_error_contract (e : AxiosError) :
    (e.code = some "ECONNABORTED" →
      ChatScreen.sendMessageToBackend (.failure e) = ChatScreen.timeoutMsg)
    ∧ (e.code ≠ some "ECONNABORTED" → e.status = some 404 →
      ChatScreen.sendMessageToBackend (.failure e) = ChatScreen.noDocMsg)
    ∧ (e.code ≠ some "ECONNABORTED" → e.status = some 500 →
      ChatScreen.sendMessageToBackend (.failure e) = ChatScreen.serverMsg)
    ∧ (e.code ≠ some "ECONNABORTED" → e.status ≠ some 404 → e.status ≠ some 500 →
      ChatScreen.sendMessageToBackend (.failure e) = ChatScreen.connErrMsg e.message)
    ∧ ChatScreen.timeoutMsg ≠ ChatScreen.noDocMsg
    ∧ ChatScreen.timeoutMsg ≠ ChatScreen.serverMsg
    ∧ ChatScreen.noDocMsg ≠ ChatScreen.serverMsg := by
  refine ⟨?_, ?_, ?_, ?_, by decide, by decide, by decide⟩
  · intro h; simp [ChatScreen.sendMessageToBackend, h]
  · intro h h404; simp [ChatScreen.sendMessageToBackend, h, h404]
  · intro h h500; simp [ChatScreen.sendMessageToBackend, h, h500]
  · intro h h404 h500; simp [ChatScreen.sendMessageToBackend, h, h404, h500]

/-- Witness for C1: the four error shapes evaluated at concrete
inputs. -/
theorem chat_error_contract_witness :
    ChatScreen.sendMessageToBackend
      (.failure ⟨some "ECONNABORTED", none, "timeout of 30000ms exceeded"⟩) =
      ChatScreen.timeoutMsg
    ∧ ChatScreen.sendMessageToBackend
      (.failure ⟨none, some 404, "Request failed with status code 404"⟩) =
      ChatScreen.noDocMsg
    ∧ ChatScreen.sendMessageToBackend
      (.failure ⟨none, some 500, "Request failed with status code 500"⟩) =
      ChatScreen.serverMsg
    ∧ ChatScreen.sendMessageToBackend (.failure ⟨none, none, "Network Error"⟩) =
      ChatScreen.connErrMsg "Network Error" := by
  refine ⟨(chat_error_contract _).1 rfl,
    (chat_error_contract _).2.1 (by decide) rfl,
    (chat_error_contract _).2.2.1 (by decide) rfl,
    (chat_error_contract _).2.2.2.1 (by decide) (by decide) (by decide)⟩

/-- C6: on success sendMessageToBackend returns data.answer when
truthy, else data.response when truthy, else the fixed non-empty
fallback; and for every outcome, success or failure, the returned
string is non-empty (the function is total, so no exception reaches
the caller). -/
theorem chat_response_shapes (a r : Option String) (o : ChatOutcome) :
    (∀ sa : String, a = some sa → sa ≠ "" →
      ChatScreen.sendMessageToBackend (.success a r) = sa)
    ∧ ((a = none ∨ a = some "") → ∀ sr : String, r = some sr → sr ≠ "" →
      ChatScreen.sendMessageToBackend (.success a r) = sr)
    ∧ ((a = none ∨ a = some "") → (r = none ∨ r = some "") →
      ChatScreen.sendMessageToBackend (.success a r) = ChatScreen.noAnswerMsg)
    ∧ ChatScreen.sendMessageToBackend o ≠ "" := by
  refine ⟨?_, ?_, ?_, ?_⟩
  · intro sa ha hne
    simp [ChatScreen.sendMessageToBackend, ha, jsStrOr, hne]
  · rintro (ha | ha) sr hr hne <;>
      simp [ChatScreen.sendMessageToBackend, ha, hr, jsStrOr, hne]
  · rintro (ha | ha) (hr | hr) <;>
      simp [ChatScreen.sendMessageToBackend, ha, hr, jsStrOr]
  · cases o with
    | success ans resp =>
      exact jsStrOr_ne_empty _ _ (jsStrOr_ne_empty _ _ (by decide))
    | failure e =>
      simp only [ChatScreen.sendMessageToBackend]
      split
      · decide
      · split
        · decide
        · split
          · decide
          · exact append_left_ne_empty _ _ (by decide)

/-- Witness for C6: concrete response shapes. -/
theorem chat_response_shapes_witness :
    ChatScreen.sendMessageToBackend (.success (some "grounded answer") none) = "grounded answer"
    ∧ ChatScreen.sendMessageToBackend (.success none (some "legacy answer")) = "legacy answer"
    ∧ ChatScreen.sendMessageToBackend (.success none none) = ChatScreen.noAnswerMsg
    ∧ ChatScreen.sendMessageToBackend (.success (some "") (some "")) ≠ "" := by
  refine ⟨(chat_response_shapes (some "grounded answer") none (.success (some "grounded answer") none)).1 _ rfl (by decide),
    (chat_response_shapes none (some "legacy answer") (.success none (some "legacy answer"))).2.1 (Or.inl rfl) _ rfl (by decide),
    (chat_response_shapes none none (.success none none)).2.2.1 (Or.inl rfl) (Or.inl rfl),
    (chat_response_shapes (some "") (some "") (.success (some "") (some ""))).2.2.2⟩

/-- C7: the chat, upload and analyze requests all carry a 30000 ms
client-side timeout. -/
theorem request_timeouts_thirty_seconds :
    ChatScreen.chatRequestConfig.timeout = some 30000
    ∧ DocumentUploadScreen.uploadRequestConfig.timeout = some 30000
    ∧ DocumentListScreen.analyzeRequestConfig.timeout = some 30000 :=
  ⟨rfl, rfl, rfl⟩

/-- C2 counterexample: the claim fails on the code. In
DocumentListScreen.getStatusText the historical Korean value '분석중'
falls to the default branch and is displayed as the uploaded label,
not the analyzing label; and in HomeScreen.getStatusText the English
values 'analyzed' and 'reanalyzing' pass through unchanged instead of
being recognized as the same stage as 'completed' and 'analyzing'. -/
theorem status_vocabulary_counterexample :
    DocumentListScreen.getStatusText "분석중" = "업로드 완료"
    ∧ DocumentListScreen.getStatusText "분석중" ≠ DocumentListScreen.getStatusText "analyzing"
    ∧ HomeScreen.getStatusText "analyzed" = "analyzed"
    ∧ HomeScreen.getStatusText "analyzed" ≠ HomeScreen.getStatusText "completed"
    ∧ HomeScreen.getStatusText "reanalyzing" ≠ HomeScreen.getStatusText "analyzing" := by
  decide

/-- C2 amended: the actual bilingual status mapping of the client.
DocumentListScreen.getStatusColor recognizes both the English and
Korean values of all three stages; DocumentListScreen.getStatusText
recognizes 'completed'/'analyzed'/'분석완료', 'analyzing'/'reanalyzing'
and 'uploaded'/'업로드완료' (the Korean uploaded value via the default
branch) but sends '분석중' to the uploaded label; and
HomeScreen.getStatusText translates only 'completed', 'analyzing' and
'uploaded', passing every other value through unchanged — so the Korean
values display as themselves while 'analyzed' and 'reanalyzing' display
as raw English. -/
theorem status_vocabulary_amended :
    DocumentListScreen.getStatusText "completed" = "분석 완료"
    ∧ DocumentListScreen.getStatusText "analyzed" = "분석 완료"
    ∧ DocumentListScreen.getStatusText "분석완료" = "분석 완료"
    ∧ DocumentListScreen.getStatusText "analyzing" = "분석 중"
    ∧ DocumentListScreen.getStatusText "reanalyzing" = "분석 중"
    ∧ DocumentListScreen.getStatusText "uploaded" = "업로드 완료"
    ∧ DocumentListScreen.getStatusText "업로드완료" = "업로드 완료"
    ∧ DocumentListScreen.getStatusText "분석중" = "업로드 완료"
    ∧ DocumentListScreen.getStatusColor "completed" = "#4CAF50"
    ∧ DocumentListScreen.getStatusColor "analyzed" = "#4CAF50"
    ∧ DocumentListScreen.getStatusColor "분석완료" = "#4CAF50"
    ∧ DocumentListScreen.getStatusColor "analyzing" = "#FF9800"
    ∧ DocumentListScreen.getStatusColor "reanalyzing" = "#FF9800"
    ∧ DocumentListScreen.getStatusColor "분석중" = "#FF9800"
    ∧ DocumentListScreen.getStatusColor "uploaded" = "#2196F3"
    ∧ DocumentListScreen.getStatusColor "업로드완료" = "#2196F3"
    ∧ HomeScreen.getStatusText "completed" = "분석완료"
    ∧ HomeScreen.getStatusText "analyzing" = "분석중"
    ∧ HomeScreen.getStatusText "uploaded" = "업로드완료"
    ∧ HomeScreen.getStatusText "분석완료" = "분석완료"
    ∧ HomeScreen.getStatusText "분석중" = "분석중"
    ∧ HomeScreen.getStatusText "업로드완료" = "업로드완료"
    ∧ HomeScreen.getStatusText "analyzed" = "analyzed"
    ∧ HomeScreen.getStatusText "reanalyzing" = "reanalyzing" := by
  decide

/-- C3 counterexample: the claim fails on the code. A bare-array
response body yields the empty list in HomeScreen and ChatScreen,
whose extraction is `response.data.documents || []` with no bare-array
fallback. -/
theorem bare_array_counterexample :
    HomeScreen.extractDocs (.bare [sampleDoc]) = []
    ∧ ChatScreen.extractDocs (.bare [sampleDoc]) = []
    ∧ ([] : List Document) ≠ [sampleDoc] := by
  refine ⟨rfl, rfl, ?_⟩
  decide

/-- C3 amended: only DocumentListScreen tolerates both response shapes
(`response.data.documents || response.data || []`); HomeScreen and
ChatScreen extract only the wrapped `documents` field and produce the
empty list for a bare-array or falsy body. -/
theorem documents_extraction_amended (docs : List Document) :
    DocumentListScreen.extractDocs (.wrapped docs) = docs
    ∧ DocumentListScreen.extractDocs (.bare docs) = docs
    ∧ DocumentListScreen.extractDocs .nullBody = []
    ∧ HomeScreen.extractDocs (.wrapped docs) = docs
    ∧ HomeScreen.extractDocs (.bare docs) = []
    ∧ HomeScreen.extractDocs .nullBody = []
    ∧ ChatScreen.extractDocs (.wrapped docs) = docs
    ∧ ChatScreen.extractDocs (.bare docs) = []
    ∧ ChatScreen.extractDocs .nullBody = [] :=
  ⟨rfl, rfl, rfl, rfl, rfl, rfl, rfl, rfl, rfl⟩

/-- C4: a failed document-list fetch leaves the previously loaded
documents unchanged in both DocumentListScreen and HomeScreen — the
catch branches only log and the finally blocks touch only the
loading/refreshing flags. -/
theorem listing_failure_keeps_stale_data (s : DocumentListScreen.DLState)
    (hs : HomeScreen.HomeState) (fmt : String → String) :
    (DocumentListScreen.fetchDocuments s .error).documents = s.documents
    ∧ (HomeScreen.fetchDocuments fmt hs .error).documents = hs.documents
    ∧ (HomeScreen.fetchDocuments fmt hs .error).notifications = hs.notifications :=
  ⟨rfl, rfl, rfl⟩

/-- C5: the client treats index 0 of the fetched list as the most
recent document. When the extracted list is non-empty, ChatScreen sets
currentDocumentId to the head's document_id; when it is empty the
state is untouched; HomeScreen's latestDoc is the head of a non-empty
list and null for an empty one. -/
theorem latest_document_is_index_zero (s : ChatScreen.ChatState) (now : Nat)
    (d : Document) (rest : List Document) (body : ListBody) :
    (ChatScreen.extractDocs body = d :: rest →
      (ChatScreen.fetchLatestDocument s now (.ok body)).currentDocumentId = some d.document_id)
    ∧ (ChatScreen.extractDocs body = [] →
      ChatScreen.fetchLatestDocument s now (.ok body) = s)
    ∧ HomeScreen.latestDoc [] = none
    ∧ HomeScreen.latestDoc (d :: rest) = some d := by
  refine ⟨?_, ?_, rfl, rfl⟩
  · intro h
    simp [ChatScreen.fetchLatestDocument, h]
  · intro h
    simp [ChatScreen.fetchLatestDocument, h]

/-- Witness for C5: a wrapped one-document response selects that
document. -/
theorem latest_document_is_index_zero_witness :
    (ChatScreen.fetchLatestDocument ⟨[], "", false, none⟩ 5
      (.ok (.wrapped [sampleDoc]))).currentDocumentId = some "d1"
    ∧ HomeScreen.latestDoc [sampleDoc] = some sampleDoc := by
  have h := (latest_document_is_index_zero ⟨[], "", false, none⟩ 5 sampleDoc []
    (.wrapped [sampleDoc])).1 rfl
  exact ⟨h, (latest_document_is_index_zero ⟨[], "", false, none⟩ 5 sampleDoc []
    (.wrapped [sampleDoc])).2.2.2⟩

/-- Every value of DocumentListScreen.getStatusText is one of the
three display labels (shared helper). -/
theorem dl_getStatusText_cases (status : String) :
    DocumentListScreen.getStatusText status = "분석 완료"
    ∨ DocumentListScreen.getStatusText status = "분석 중"
    ∨ DocumentListScreen.getStatusText status = "업로드 완료" := by
  unfold DocumentListScreen.getStatusText
  split_ifs <;> simp

/-- C8: DocumentListScreen.getStatusText is total with exactly three
possible display labels, any unrecognized value defaulting to the
uploaded label, and the badge color
getStatusColor(getStatusText(status)) never takes the fallback value
'#666'. -/
theorem status_badge_never_fallback (status : String) :
    (DocumentListScreen.getStatusText status = "분석 완료"
      ∨ DocumentListScreen.getStatusText status = "분석 중"
      ∨ DocumentListScreen.getStatusText status = "업로드 완료")
    ∧ (status ≠ "completed" → status ≠ "analyzed" → status ≠ "분석완료" →
        status ≠ "analyzing" → status ≠ "reanalyzing" → status ≠ "uploaded" →
        DocumentListScreen.getStatusText status = "업로드 완료")
    ∧ DocumentListScreen.statusBadgeColor status ≠ "#666" := by
  refine ⟨dl_getStatusText_cases status, ?_, ?_⟩
  · intro h1 h2 h3 h4 h5 h6
    simp [DocumentListScreen.getStatusText, h1, h2, h3, h4, h5, h6]
  · unfold DocumentListScreen.statusBadgeColor
    rcases dl_getStatusText_cases status with h | h | h <;> rw [h] <;> decide

/-- Witness for C8: an out-of-vocabulary status still gets the
uploaded label and a non-fallback badge color. -/
theorem status_badge_never_fallback_witness :
    DocumentListScreen.getStatusText "failed" = "업로드 완료"
    ∧ DocumentListScreen.statusBadgeColor "failed" ≠ "#666" :=
  ⟨(status_badge_never_fallback "failed").2.1 (by decide) (by decide) (by decide)
      (by decide) (by decide) (by decide),
    (status_badge_never_fallback "failed").2.2⟩

/-- C9: sendMessage on a blank input is a no-op that issues no backend
request; on a non-blank input it issues exactly one request, appends
exactly one user message carrying the trimmed text followed by exactly
one non-user message, clears the input field and ends with the typing
flag off. -/
theorem send_message_frame (s : ChatScreen.ChatState) (textToSend : String)
    (now : Nat) (o : ChatOutcome) (threw : Bool) :
    (jsTrim textToSend = "" →
      ChatScreen.sendMessage s textToSend now o threw = (s, false))
    ∧ (jsTrim textToSend ≠ "" →
      (ChatScreen.sendMessage s textToSend now o threw).2 = true
      ∧ (ChatScreen.sendMessage s textToSend now o threw).1.isTyping = false
      ∧ (ChatScreen.sendMessage s textToSend now o threw).1.message = ""
      ∧ ∃ ai : ChatMessage, ai.isUser = false
        ∧ (ChatScreen.sendMessage s textToSend now o threw).1.messages =
          s.messages ++
            [{ id := toString now, text := jsTrim textToSend, isUser := true, timestamp := now },
              ai]) := by
  constructor
  · intro h
    simp [ChatScreen.sendMessage, h]
  · intro h
    refine ⟨?_, ?_, ?_, ?_⟩
    · simp [ChatScreen.sendMessage, h]
    · simp [ChatScreen.sendMessage, h]
    · simp [ChatScreen.sendMessage, h]
    · refine ⟨{ id := toString (now + 1)
                text := if threw then ChatScreen.unexpectedErrMsg
                  else ChatScreen.sendMessageToBackend o
                isUser := false
                timestamp := now }, rfl, ?_⟩
      simp [ChatScreen.sendMessage, h]

/-- Witness for C9: a whitespace-only input is a no-op, a non-blank
input issues the request. -/
theorem send_message_frame_witness :
    ChatScreen.sendMessage ⟨[], "", false, none⟩ "   " 0 (.success none none) false =
      (⟨[], "", false, none⟩, false)
    ∧ (ChatScreen.sendMessage ⟨[], "", false, none⟩ " hi " 0
        (.success (some "ok") none) false).2 = true :=
  ⟨(send_message_frame ⟨[], "", false, none⟩ "   " 0 (.success none none) false).1 (by decide),
    ((send_message_frame ⟨[], "", false, none⟩ " hi " 0
        (.success (some "ok") none) false).2 (by decide)).1⟩

/-- C10: with a non-empty match list, handleNextMatch and
handlePrevMatch stay within [0, foundIds.length), advancing or
decreasing the index by one modulo the length (wrapping at both ends);
with an empty list both are the identity; and any change of the search
text whose trimmed value is non-blank resets currentMatchIndex to 0
(in particular whenever the result list is non-empty). -/
theorem search_navigation_wraps (foundIds : List String) (i : Int)
    (messages : List ChatMessage) (searchText : String) :
    (foundIds.length ≠ 0 →
      0 ≤ ChatScreen.handleNextMatch foundIds i
      ∧ ChatScreen.handleNextMatch foundIds i < foundIds.length
      ∧ 0 ≤ ChatScreen.handlePrevMatch foundIds i
      ∧ ChatScreen.handlePrevMatch foundIds i < foundIds.length
      ∧ ChatScreen.handleNextMatch foundIds i = (i + 1) % foundIds.length
      ∧ ChatScreen.handlePrevMatch foundIds i = (i - 1) % foundIds.length)
    ∧ (foundIds.length = 0 →
      ChatScreen.handleNextMatch foundIds i = i
      ∧ ChatScreen.handlePrevMatch foundIds i = i)
    ∧ (jsTrim searchText ≠ "" →
      (ChatScreen.searchEffect messages searchText i).2 = 0)
    ∧ (jsTrim searchText = "" →
      (ChatScreen.searchEffect messages searchText i).1 = []
      ∧ (ChatScreen.searchEffect messages searchText i).2 = i) := by
  refine ⟨?_, ?_, ?_, ?_⟩
  · intro h
    have hpos : (0 : Int) < (foundIds.length : Int) := by positivity
    have hne : ((foundIds.length : Int)) ≠ 0 := ne_of_gt hpos
    have hnext : ChatScreen.handleNextMatch foundIds i = (i + 1) % foundIds.length := by
      unfold ChatScreen.handleNextMatch
      rw [if_neg h]
    have hprev : ChatScreen.handlePrevMatch foundIds i = (i - 1) % foundIds.length := by
      unfold ChatScreen.handlePrevMatch
      rw [if_neg h]
      simp [Int.add_mul_emod_self_left]
    refine ⟨?_, ?_, ?_, ?_, hnext, hprev⟩
    · rw [hnext]; exact Int.emod_nonneg _ hne
    · rw [hnext]; exact Int.emod_lt_of_pos _ hpos
    · rw [hprev]; exact Int.emod_nonneg _ hne
    · rw [hprev]; exact Int.emod_lt_of_pos _ hpos
  · intro h
    simp [ChatScreen.handleNextMatch, ChatScreen.handlePrevMatch, h]
  · intro h
    simp [ChatScreen.searchEffect, h]
  · intro h
    simp [ChatScreen.searchEffect, h]

/-- Witness for C10: three matches, index at the last one — next wraps
to 0, prev steps back, and a live search resets the index. -/
theorem search_navigation_wraps_witness :
    0 ≤ ChatScreen.handleNextMatch ["1", "2", "3"] 2
    ∧ ChatScreen.handleNextMatch ["1", "2", "3"] 2 < 3
    ∧ ChatScreen.handleNextMatch ["1", "2", "3"] 2 = 0
    ∧ ChatScreen.handlePrevMatch ["1", "2", "3"] 0 = 2
    ∧ (ChatScreen.searchEffect [] "마감" 7).2 = 0 := by
  have h := (search_navigation_wraps ["1", "2", "3"] 2 [] "마감").1 (by decide)
  refine ⟨h.1, by exact_mod_cast h.2.1, by rw [h.2.2.2.2.1]; decide, ?_, ?_⟩
  · have h2 := (search_navigation_wraps ["1", "2", "3"] 0 [] "마감").1 (by decide)
    rw [h2.2.2.2.2.2]
    decide
  · exact (search_navigation_wraps ["1", "2", "3"] 2 [] "마감").2.2.1 (by decide)
